import Mathlib

/-
Verification of the pong simulation core (src/main.rs) against its
natural-language specification.  Coordinates of bevy's `f32` vectors are
modelled as rationals; every per-frame system of the game is embedded as a
pure function on an explicit game state.
-/

set_option autoImplicit false

namespace Pong

/-- Two-dimensional vector of rationals, modelling bevy's `Vec2`. -/
structure Vec2 where
  x : ℚ
  y : ℚ
deriving DecidableEq

/-- Three-dimensional vector of rationals, modelling bevy's `Vec3`
(the `translation` field of a `Transform`). -/
structure Vec3 where
  x : ℚ
  y : ℚ
  z : ℚ
deriving DecidableEq

/-- Model of `Vec2::extend`: append a third coordinate. -/
def Vec2.extend (v : Vec2) (z : ℚ) : Vec3 := ⟨v.x, v.y, z⟩

/-- Componentwise addition of `Vec3` (the `+=` in `movement`). -/
def Vec3.add (a b : Vec3) : Vec3 := ⟨a.x + b.x, a.y + b.y, a.z + b.z⟩

/-- Scalar multiplication of a `Vec3` (the `* dt` in `movement`). -/
def Vec3.smul (a : Vec3) (s : ℚ) : Vec3 := ⟨a.x * s, a.y * s, a.z * s⟩

/-- Constant from `paddle_limiter`. -/
def PADDLE_HALF_HEIGHT : ℚ := 32

/-- Constant from `paddle_limiter` and `ball_limiter`. -/
def SCREEN_HALF_HEIGHT : ℚ := 360

/-- Constant from `ball_limiter`. -/
def SCREEN_HALF_WIDTH : ℚ := 640

/-- Constant from `ball_limiter`. -/
def BALL_RADIUS : ℚ := 8

/-- Constant from `ball_paddle_collider`.  Note the source gives this
constant the value `8.0`, which is the radius of the ball spawned in
`setup`, not its diameter. -/
def BALL_DIAMETER : ℚ := 8

/-- Constant from `ball_paddle_collider`. -/
def PADDLE_WIDTH : ℚ := 16

/-- Constant from `ball_paddle_collider`. -/
def PADDLE_HEIGHT : ℚ := 64

/-- Per-side input sub-state (struct `PaddleInputs`). -/
structure PaddleInputs where
  up : Bool
  down : Bool
deriving DecidableEq

/-- Process-wide input snapshot (struct `Inputs`). -/
structure Inputs where
  left : PaddleInputs
  right : PaddleInputs
deriving DecidableEq

/-- Default input snapshot: all keys released (`Inputs::default`). -/
def Inputs.default : Inputs := ⟨⟨false, false⟩, ⟨false, false⟩⟩

/-- Which side a paddle belongs to (enum `Player`). -/
inductive Player where
  | Left : Player
  | Right : Player
deriving DecidableEq

/-- An entity carrying a `Transform` translation and a `Velocity`. -/
structure Entity where
  translation : Vec3
  velocity : Vec2
deriving DecidableEq

/-- The simulation state: the single ball entity and the two paddle
entities (one per side), as created by `setup`. -/
structure GameState where
  ball : Entity
  paddleLeft : Entity
  paddleRight : Entity
deriving DecidableEq

/-- The state created by the `setup` startup system: ball at the origin
with velocity `(150, 150)`, paddles at `x = ∓500` with zero velocity. -/
def setupState : GameState :=
  { ball := { translation := ⟨0, 0, 0⟩, velocity := ⟨150, 150⟩ }
    paddleLeft := { translation := ⟨-500, 0, 0⟩, velocity := ⟨0, 0⟩ }
    paddleRight := { translation := ⟨500, 0, 0⟩, velocity := ⟨0, 0⟩ } }

/-- The body of `handle_inputs` for one paddle: select the input sub-state
matching the paddle's side, zero the vertical velocity, then add the speed
constant if `up` is pressed and subtract it if `down` is pressed. -/
def handlePaddleVelocity (inputs : Inputs) (side : Player) (v : Vec2) : Vec2 :=
  let input := match side with
    | Player.Left => inputs.left
    | Player.Right => inputs.right
  let vy : ℚ := 0
  let vy := if input.up then vy + 600 else vy
  let vy := if input.down then vy - 600 else vy
  ⟨v.x, vy⟩

/-- The `handle_inputs` system: applies `handlePaddleVelocity` to every
entity with a `Paddle` marker (the ball carries no `Paddle` marker and is
not matched by the query). -/
def handle_inputs (inputs : Inputs) (s : GameState) : GameState :=
  { s with
    paddleLeft := { s.paddleLeft with
      velocity := handlePaddleVelocity inputs Player.Left s.paddleLeft.velocity }
    paddleRight := { s.paddleRight with
      velocity := handlePaddleVelocity inputs Player.Right s.paddleRight.velocity } }

/-- The body of `movement` for one entity:
`transform.translation += velocity.0.extend(0.0) * dt`. -/
def moveEntity (dt : ℚ) (e : Entity) : Entity :=
  { e with translation := e.translation.add ((e.velocity.extend 0).smul dt) }

/-- The `movement` system: the query matches every entity having both a
`Transform` and a `Velocity`; here the ball and both paddles. -/
def movement (dt : ℚ) (s : GameState) : GameState :=
  { ball := moveEntity dt s.ball
    paddleLeft := moveEntity dt s.paddleLeft
    paddleRight := moveEntity dt s.paddleRight }

/-- The `movement` query semantics for a general entity: an entity whose
velocity component is absent is not matched by
`Query<(&mut Transform, &Velocity)>` and keeps its translation. -/
def moveMaybeVelocity (dt : ℚ) (t : Vec3) (v : Option Vec2) : Vec3 :=
  match v with
  | some v => t.add ((v.extend 0).smul dt)
  | none => t

/-- The body of `paddle_limiter` for one paddle transform: two sequential
clamps of the vertical coordinate. -/
def paddleLimiterStep (t : Vec3) : Vec3 :=
  let t1 := if t.y > SCREEN_HALF_HEIGHT - PADDLE_HALF_HEIGHT then
      ⟨t.x, SCREEN_HALF_HEIGHT - PADDLE_HALF_HEIGHT, t.z⟩
    else t
  if t1.y < -SCREEN_HALF_HEIGHT + PADDLE_HALF_HEIGHT then
    ⟨t1.x, -SCREEN_HALF_HEIGHT + PADDLE_HALF_HEIGHT, t1.z⟩
  else t1

/-- The `paddle_limiter` system: applies the clamp to every entity with a
`Paddle` marker; velocities are not part of its query. -/
def paddle_limiter (s : GameState) : GameState :=
  { s with
    paddleLeft := { s.paddleLeft with
      translation := paddleLimiterStep s.paddleLeft.translation }
    paddleRight := { s.paddleRight with
      translation := paddleLimiterStep s.paddleRight.translation } }

/-- Vertical part of `ball_limiter` (the two bounce checks): each check
clamps the vertical coordinate and raises the `flip_vert` flag; after
both checks a raised flag negates the vertical velocity once. -/
def ballLimiterVert (t : Vec3) (v : Vec2) : Vec3 × Vec2 :=
  let p1 : Vec3 × Bool :=
    if t.y > SCREEN_HALF_HEIGHT - BALL_RADIUS then
      (⟨t.x, SCREEN_HALF_HEIGHT - BALL_RADIUS, t.z⟩, true)
    else (t, false)
  let p2 : Vec3 × Bool :=
    if p1.1.y < -SCREEN_HALF_HEIGHT + BALL_RADIUS then
      (⟨p1.1.x, -SCREEN_HALF_HEIGHT + BALL_RADIUS, p1.1.z⟩, true)
    else p1
  (p2.1, if p2.2 then ⟨v.x, -v.y⟩ else v)

/-- Horizontal part of `ball_limiter` (the recenter checks): if either
check raises the `ball_out` flag, the whole translation is reset to
`Vec3::ZERO` and the horizontal velocity is negated. -/
def ballLimiterHoriz (t : Vec3) (v : Vec2) : Vec3 × Vec2 :=
  let out1 : Bool := if t.x < -SCREEN_HALF_WIDTH - BALL_RADIUS then true else false
  let out2 : Bool := if t.x > SCREEN_HALF_WIDTH + BALL_RADIUS then true else out1
  if out2 then (⟨0, 0, 0⟩, ⟨-v.x, v.y⟩) else (t, v)

/-- The body of `ball_limiter` for the ball: the vertical bounce checks
followed by the horizontal recenter checks. -/
def ballLimiterStep (t : Vec3) (v : Vec2) : Vec3 × Vec2 :=
  ballLimiterHoriz (ballLimiterVert t v).1 (ballLimiterVert t v).2

/-- The `ball_limiter` system: applies `ballLimiterStep` to every entity
with a `Ball` marker; here the single ball. -/
def ball_limiter (s : GameState) : GameState :=
  { s with ball :=
    { translation := (ballLimiterStep s.ball.translation s.ball.velocity).1
      velocity := (ballLimiterStep s.ball.translation s.ball.velocity).2 } }

/-- The overlap test of `ball_paddle_collider`, exactly as in the source
(the paddle position is treated as a corner-ish reference point and
`BALL_DIAMETER` is the constant `8`). -/
def overlaps (ball_pos paddle_pos : Vec3) : Prop :=
  ball_pos.x < paddle_pos.x + PADDLE_WIDTH ∧
  ball_pos.x + BALL_DIAMETER > paddle_pos.x ∧
  ball_pos.y > paddle_pos.y - PADDLE_HEIGHT ∧
  ball_pos.y - BALL_DIAMETER < paddle_pos.y

instance overlapsDecidable (a b : Vec3) : Decidable (overlaps a b) := by
  unfold overlaps
  exact inferInstance

/-- The inner loop body of `ball_paddle_collider` for one paddle: on
overlap, negate the ball's horizontal velocity; no position is written. -/
def colliderPaddle (ball_pos : Vec3) (v : Vec2) (paddle_pos : Vec3) : Vec2 :=
  if overlaps ball_pos paddle_pos then ⟨-v.x, v.y⟩ else v

/-- The `ball_paddle_collider` system: for the ball, fold the per-paddle
body over both paddles. -/
def ball_paddle_collider (s : GameState) : GameState :=
  { s with ball := { s.ball with velocity := colliderPaddle s.ball.translation (colliderPaddle s.ball.translation s.ball.velocity s.paddleLeft.translation) s.paddleRight.translation } }

/-- One full frame in the reference order registered in `main`:
input decoding yields the snapshot `inputs`, then `handle_inputs`,
`movement`, and the three post-movement systems `paddle_limiter`,
`ball_limiter`, `ball_paddle_collider`. -/
def frameStep (inputs : Inputs) (dt : ℚ) (s : GameState) : GameState :=
  ball_paddle_collider (ball_limiter (paddle_limiter (movement dt (handle_inputs inputs s))))

/-- States reachable at frame boundaries: the `setup` state, closed under
full frame steps with arbitrary input snapshots and nonnegative elapsed
times. -/
inductive Reachable : GameState → Prop where
  | init : Reachable setupState
  | step : ∀ (s : GameState) (inputs : Inputs) (dt : ℚ),
      0 ≤ dt → Reachable s → Reachable (frameStep inputs dt s)

/-- Modelled from the spec claim wording: the same overlap test with
`ball_diameter` taken as the diameter, `16`, of the radius-8 ball spawned
in `setup` (the source instead uses the constant `8`). -/
def overlapsSpecDiameter16 (ball_pos paddle_pos : Vec3) : Prop :=
  ball_pos.x < paddle_pos.x + PADDLE_WIDTH ∧
  ball_pos.x + 16 > paddle_pos.x ∧
  ball_pos.y > paddle_pos.y - PADDLE_HEIGHT ∧
  ball_pos.y - 16 < paddle_pos.y

instance overlapsSpecDiameter16Decidable (a b : Vec3) : Decidable (overlapsSpecDiameter16 a b) := by
  unfold overlapsSpecDiameter16
  exact inferInstance

/-! Normal forms of the limiter bodies. -/

lemma ballLimiterVert_eq (t : Vec3) (v : Vec2) :
    ballLimiterVert t v =
      if t.y > 352 then (⟨t.x, 352, t.z⟩, ⟨v.x, -v.y⟩)
      else if t.y < -352 then (⟨t.x, -352, t.z⟩, ⟨v.x, -v.y⟩)
      else (t, v) := by
  simp only [ballLimiterVert, SCREEN_HALF_HEIGHT, BALL_RADIUS]
  norm_num
  split_ifs <;> simp_all
  all_goals linarith

lemma ballLimiterHoriz_eq (t : Vec3) (v : Vec2) :
    ballLimiterHoriz t v =
      if t.x > 648 ∨ t.x < -648 then (⟨0, 0, 0⟩, ⟨-v.x, v.y⟩)
      else (t, v) := by
  simp only [ballLimiterHoriz, SCREEN_HALF_WIDTH, BALL_RADIUS]
  norm_num

lemma paddleLimiterStep_eq (t : Vec3) :
    paddleLimiterStep t =
      if t.y > 328 then ⟨t.x, 328, t.z⟩
      else if t.y < -328 then ⟨t.x, -328, t.z⟩
      else t := by
  simp only [paddleLimiterStep, SCREEN_HALF_HEIGHT, PADDLE_HALF_HEIGHT]
  norm_num
  split_ifs <;> simp_all
  all_goals linarith

lemma ballLimiterVert_x (t : Vec3) (v : Vec2) : (ballLimiterVert t v).1.x = t.x := by
  rw [ballLimiterVert_eq]
  split_ifs <;> rfl

lemma ballLimiterVert_vx (t : Vec3) (v : Vec2) : (ballLimiterVert t v).2.x = v.x := by
  rw [ballLimiterVert_eq]
  split_ifs <;> rfl

lemma ballLimiterStep_out (t : Vec3) (v : Vec2) (hE : t.x > 648 ∨ t.x < -648) :
    (ballLimiterStep t v).1 = ⟨0, 0, 0⟩ ∧ (ballLimiterStep t v).2.x = -v.x := by
  unfold ballLimiterStep
  rw [ballLimiterHoriz_eq, ballLimiterVert_x, if_pos hE]
  constructor
  · rfl
  · show -(ballLimiterVert t v).2.x = -v.x
    rw [ballLimiterVert_vx]

lemma ballLimiterStep_in (t : Vec3) (v : Vec2) (hn : ¬(t.x > 648 ∨ t.x < -648)) :
    (ballLimiterStep t v).2.x = v.x := by
  unfold ballLimiterStep
  rw [ballLimiterHoriz_eq, ballLimiterVert_x, if_neg hn]
  exact ballLimiterVert_vx t v

lemma ballLimiterStep_y_bounds (t : Vec3) (v : Vec2) :
    -352 ≤ (ballLimiterStep t v).1.y ∧ (ballLimiterStep t v).1.y ≤ 352 := by
  unfold ballLimiterStep
  rw [ballLimiterHoriz_eq]
  split_ifs with hc
  · exact ⟨show (-352 : ℚ) ≤ 0 by norm_num, show (0 : ℚ) ≤ 352 by norm_num⟩
  · show -352 ≤ (ballLimiterVert t v).1.y ∧ (ballLimiterVert t v).1.y ≤ 352
    rw [ballLimiterVert_eq]
    split_ifs with h1 h2
    · exact ⟨show (-352 : ℚ) ≤ 352 by norm_num, show (352 : ℚ) ≤ 352 by norm_num⟩
    · exact ⟨show (-352 : ℚ) ≤ -352 by norm_num, show (-352 : ℚ) ≤ 352 by norm_num⟩
    · constructor <;> linarith

lemma collider_vx_eq (s : GameState) :
    (ball_paddle_collider s).ball.velocity.x =
      (if overlaps s.ball.translation s.paddleRight.translation then -1 else 1) *
      ((if overlaps s.ball.translation s.paddleLeft.translation then -1 else 1) *
        s.ball.velocity.x) := by
  simp only [ball_paddle_collider, colliderPaddle]
  split_ifs <;> (try dsimp only) <;> ring

lemma collider_vx (s : GameState) :
    (ball_paddle_collider s).ball.velocity.x = s.ball.velocity.x ∨
    (ball_paddle_collider s).ball.velocity.x = -s.ball.velocity.x := by
  rw [collider_vx_eq]
  split_ifs <;> first | (left; ring1) | (right; ring1)

lemma ball_limiter_vx (s : GameState) :
    (ball_limiter s).ball.velocity.x = s.ball.velocity.x ∨
    (ball_limiter s).ball.velocity.x = -s.ball.velocity.x := by
  by_cases hE : s.ball.translation.x > 648 ∨ s.ball.translation.x < -648
  · right
    exact (ballLimiterStep_out s.ball.translation s.ball.velocity hE).2
  · left
    exact ballLimiterStep_in s.ball.translation s.ball.velocity hE

lemma paddleLimiterStep_bounds (t : Vec3) :
    -328 ≤ (paddleLimiterStep t).y ∧ (paddleLimiterStep t).y ≤ 328 := by
  rw [paddleLimiterStep_eq]
  split_ifs with h1 h2
  · exact ⟨show (-328 : ℚ) ≤ 328 by norm_num, show (328 : ℚ) ≤ 328 by norm_num⟩
  · exact ⟨show (-328 : ℚ) ≤ -328 by norm_num, show (-328 : ℚ) ≤ 328 by norm_num⟩
  · constructor <;> linarith

lemma paddleLimiterStep_id (t : Vec3) (h1 : -328 ≤ t.y) (h2 : t.y ≤ 328) :
    paddleLimiterStep t = t := by
  rw [paddleLimiterStep_eq]
  split_ifs with ha hb
  · exact absurd ha (not_lt.mpr h2)
  · exact absurd hb (not_lt.mpr h1)
  · rfl

lemma paddleLimiterStep_x (t : Vec3) : (paddleLimiterStep t).x = t.x := by
  rw [paddleLimiterStep_eq]
  split_ifs <;> rfl

lemma frame_ball_y_bounds (inputs : Inputs) (dt : ℚ) (s : GameState) :
    -352 ≤ (frameStep inputs dt s).ball.translation.y ∧
      (frameStep inputs dt s).ball.translation.y ≤ 352 := by
  have h := ballLimiterStep_y_bounds
    ((paddle_limiter (movement dt (handle_inputs inputs s))).ball.translation)
    ((paddle_limiter (movement dt (handle_inputs inputs s))).ball.velocity)
  exact h

lemma reachable_config (s : GameState) (h : Reachable s) :
    s.paddleLeft.translation.x = -500 ∧ s.paddleLeft.velocity.x = 0 ∧
    s.paddleRight.translation.x = 500 ∧ s.paddleRight.velocity.x = 0 ∧
    (s.ball.velocity.x = 150 ∨ s.ball.velocity.x = -150) := by
  induction h with
  | init => exact ⟨rfl, rfl, rfl, rfl, Or.inl rfl⟩
  | step s inputs dt hdt hr ih =>
    obtain ⟨hpl, hvl, hpr, hvr, hbv⟩ := ih
    refine ⟨?_, ?_, ?_, ?_, ?_⟩
    · show (paddleLimiterStep ((movement dt (handle_inputs inputs s)).paddleLeft.translation)).x = -500
      rw [paddleLimiterStep_x]
      show s.paddleLeft.translation.x + s.paddleLeft.velocity.x * dt = -500
      rw [hpl, hvl]; ring
    · show s.paddleLeft.velocity.x = 0
      exact hvl
    · show (paddleLimiterStep ((movement dt (handle_inputs inputs s)).paddleRight.translation)).x = 500
      rw [paddleLimiterStep_x]
      show s.paddleRight.translation.x + s.paddleRight.velocity.x * dt = 500
      rw [hpr, hvr]; ring
    · show s.paddleRight.velocity.x = 0
      exact hvr
    · have hc := collider_vx (ball_limiter (paddle_limiter (movement dt (handle_inputs inputs s))))
      have hb2 := ball_limiter_vx (paddle_limiter (movement dt (handle_inputs inputs s)))
      have hmid : (paddle_limiter (movement dt (handle_inputs inputs s))).ball.velocity.x =
          s.ball.velocity.x := rfl
      rw [hmid] at hb2
      have hfr : (frameStep inputs dt s).ball.velocity.x =
          (ball_paddle_collider (ball_limiter (paddle_limiter
            (movement dt (handle_inputs inputs s))))).ball.velocity.x := rfl
      rw [hfr]
      rcases hc with hc | hc <;> rw [hc] <;> rcases hb2 with hb2 | hb2 <;> rw [hb2] <;>
        rcases hbv with hb | hb <;> rw [hb] <;> norm_num

/-- C1, counterexample: the claim reads the overlap test with
`ball_diameter` as the diameter (16) of the radius-8 ball.  At ball
position `(-12, 0, 0)` and paddle position `(0, 0, 0)` that test holds,
yet the collider body, whose `BALL_DIAMETER` constant is `8`, leaves the
ball velocity `(150, 150)` unchanged. -/
theorem c1_counterexample :
    overlapsSpecDiameter16 ⟨-12, 0, 0⟩ ⟨0, 0, 0⟩ ∧
    colliderPaddle ⟨-12, 0, 0⟩ ⟨150, 150⟩ ⟨0, 0, 0⟩ = ⟨150, 150⟩ := by
  constructor
  · simp only [overlapsSpecDiameter16, PADDLE_WIDTH, PADDLE_HEIGHT]
    norm_num
  · have h : ¬ overlaps ⟨-12, 0, 0⟩ ⟨0, 0, 0⟩ := by
      simp only [overlaps, PADDLE_WIDTH, PADDLE_HEIGHT, BALL_DIAMETER]
      norm_num
    simp only [colliderPaddle, if_neg h]

/-- C1, amended: the Ball-Paddle Collider inverts the ball's horizontal
velocity exactly when the asymmetric overlap test holds with the source's
constant `BALL_DIAMETER = 8` (the radius of the ball, despite the
constant's name), once per overlapping paddle, and performs no position
correction: ball and paddle positions (and the vertical velocity) are
unchanged by the collider. -/
theorem c1_collider_corner_test (s : GameState) :
    (ball_paddle_collider s).ball.translation = s.ball.translation ∧
    (ball_paddle_collider s).paddleLeft = s.paddleLeft ∧
    (ball_paddle_collider s).paddleRight = s.paddleRight ∧
    (ball_paddle_collider s).ball.velocity.y = s.ball.velocity.y ∧
    (ball_paddle_collider s).ball.velocity.x =
      (if overlaps s.ball.translation s.paddleRight.translation then -1 else 1) *
      ((if overlaps s.ball.translation s.paddleLeft.translation then -1 else 1) *
        s.ball.velocity.x) := by
  refine ⟨rfl, rfl, rfl, ?_, ?_⟩
  · simp only [ball_paddle_collider, colliderPaddle]
    split_ifs <;> rfl
  · simp only [ball_paddle_collider, colliderPaddle]
    split_ifs <;> (try dsimp only) <;> ring

/-- C2: if the ball's vertical position exceeds `+352` or lies below
`-352`, the vertical part of the Ball Limiter clamps the vertical
position to that bound and negates the vertical velocity; if the
vertical position is within those bounds, position and velocity are
unchanged. -/
theorem c2_ball_limiter_vertical (t : Vec3) (v : Vec2) :
    (t.y > 352 → (ballLimiterVert t v).1.y = 352 ∧ (ballLimiterVert t v).2.y = -v.y) ∧
    (t.y < -352 → (ballLimiterVert t v).1.y = -352 ∧ (ballLimiterVert t v).2.y = -v.y) ∧
    (-352 ≤ t.y → t.y ≤ 352 →
      (ballLimiterVert t v).1 = t ∧ (ballLimiterVert t v).2 = v) := by
  rw [ballLimiterVert_eq]
  split_ifs with h1 h2
  · exact ⟨fun _ => ⟨rfl, rfl⟩, fun h => (by linarith : False).elim,
      fun _ h => (by linarith : False).elim⟩
  · exact ⟨fun h => (by linarith : False).elim, fun _ => ⟨rfl, rfl⟩,
      fun h _ => (by linarith : False).elim⟩
  · exact ⟨fun h => absurd h h1, fun h => absurd h h2, fun _ _ => ⟨rfl, rfl⟩⟩

/-- C2, witness: at ball position `(0, 400, 0)` and velocity
`(150, 150)` the vertical clamp yields position `y = 352` and vertical
velocity `-150`. -/
theorem c2_witness :
    (ballLimiterVert ⟨0, 400, 0⟩ ⟨150, 150⟩).1.y = 352 ∧
    (ballLimiterVert ⟨0, 400, 0⟩ ⟨150, 150⟩).2.y = -150 :=
  (c2_ball_limiter_vertical ⟨0, 400, 0⟩ ⟨150, 150⟩).1 (show (352 : ℚ) < 400 by norm_num)

/-- C3: if the ball's horizontal position is beyond `+648` or beyond
`-648`, the horizontal part of the Ball Limiter resets the whole
translation to the field center and negates the horizontal velocity,
leaving the vertical velocity unchanged; within those bounds this step
changes nothing. -/
theorem c3_ball_limiter_horizontal (t : Vec3) (v : Vec2) :
    (t.x > 648 ∨ t.x < -648 →
      (ballLimiterHoriz t v).1 = ⟨0, 0, 0⟩ ∧
      (ballLimiterHoriz t v).2.x = -v.x ∧
      (ballLimiterHoriz t v).2.y = v.y) ∧
    (-648 ≤ t.x → t.x ≤ 648 →
      (ballLimiterHoriz t v).1 = t ∧ (ballLimiterHoriz t v).2 = v) := by
  rw [ballLimiterHoriz_eq]
  split_ifs with h1
  · exact ⟨fun _ => ⟨rfl, rfl, rfl⟩,
      fun ha hb => (by rcases h1 with h | h <;> linarith : False).elim⟩
  · exact ⟨fun h => absurd h h1, fun _ _ => ⟨rfl, rfl⟩⟩

/-- C3, witness: a ball at `x = 649` is recentered to the origin and its
horizontal velocity `150` becomes `-150`, the vertical velocity `150`
being untouched. -/
theorem c3_witness :
    (ballLimiterHoriz ⟨649, 5, 0⟩ ⟨150, 150⟩).1 = ⟨0, 0, 0⟩ ∧
    (ballLimiterHoriz ⟨649, 5, 0⟩ ⟨150, 150⟩).2.x = -150 ∧
    (ballLimiterHoriz ⟨649, 5, 0⟩ ⟨150, 150⟩).2.y = 150 :=
  (c3_ball_limiter_horizontal ⟨649, 5, 0⟩ ⟨150, 150⟩).1
    (Or.inl (show (648 : ℚ) < 649 by norm_num))

/-- C4: the Paddle Controller selects the input sub-state matching each
paddle's side and sets the paddle's vertical velocity to
`0 + 600·up - 600·down`; the result is independent of the paddle's
previous velocity, and both keys pressed cancel to exactly `0`. -/
theorem c4_paddle_controller (inputs : Inputs) (s sAlt : GameState) :
    (handle_inputs inputs s).paddleLeft.velocity.y =
      0 + (if inputs.left.up then (600 : ℚ) else 0)
        - (if inputs.left.down then (600 : ℚ) else 0) ∧
    (handle_inputs inputs s).paddleRight.velocity.y =
      0 + (if inputs.right.up then (600 : ℚ) else 0)
        - (if inputs.right.down then (600 : ℚ) else 0) ∧
    (handle_inputs inputs s).paddleLeft.velocity.y =
      (handle_inputs inputs sAlt).paddleLeft.velocity.y ∧
    (handle_inputs inputs s).paddleRight.velocity.y =
      (handle_inputs inputs sAlt).paddleRight.velocity.y ∧
    (inputs.left.up = true → inputs.left.down = true →
      (handle_inputs inputs s).paddleLeft.velocity.y = 0) ∧
    (inputs.right.up = true → inputs.right.down = true →
      (handle_inputs inputs s).paddleRight.velocity.y = 0) := by
  rcases inputs with ⟨⟨lu, ld⟩, ⟨ru, rd⟩⟩
  simp only [handle_inputs, handlePaddleVelocity]
  cases lu <;> cases ld <;> cases ru <;> cases rd <;> norm_num

/-- C4, witness: with left-up and left-down both pressed, the left
paddle's resulting vertical velocity is exactly `0`. -/
theorem c4_witness :
    (handle_inputs ⟨⟨true, true⟩, ⟨false, false⟩⟩ setupState).paddleLeft.velocity.y = 0 :=
  (c4_paddle_controller ⟨⟨true, true⟩, ⟨false, false⟩⟩ setupState setupState).2.2.2.2.1
    rfl rfl

/-- C5: after the Paddle Limiter, every paddle's vertical position lies
in `[-328, 328]`; positions already in that interval are unchanged, and
paddle velocities are not changed by the clamp. -/
theorem c5_paddle_limiter (s : GameState) :
    (-328 ≤ (paddle_limiter s).paddleLeft.translation.y ∧
      (paddle_limiter s).paddleLeft.translation.y ≤ 328) ∧
    (-328 ≤ (paddle_limiter s).paddleRight.translation.y ∧
      (paddle_limiter s).paddleRight.translation.y ≤ 328) ∧
    (-328 ≤ s.paddleLeft.translation.y → s.paddleLeft.translation.y ≤ 328 →
      (paddle_limiter s).paddleLeft.translation = s.paddleLeft.translation) ∧
    (-328 ≤ s.paddleRight.translation.y → s.paddleRight.translation.y ≤ 328 →
      (paddle_limiter s).paddleRight.translation = s.paddleRight.translation) ∧
    (paddle_limiter s).paddleLeft.velocity = s.paddleLeft.velocity ∧
    (paddle_limiter s).paddleRight.velocity = s.paddleRight.velocity := by
  refine ⟨?_, ?_, ?_, ?_, rfl, rfl⟩
  · exact paddleLimiterStep_bounds s.paddleLeft.translation
  · exact paddleLimiterStep_bounds s.paddleRight.translation
  · exact fun h1 h2 => paddleLimiterStep_id _ h1 h2
  · exact fun h1 h2 => paddleLimiterStep_id _ h1 h2

/-- C5, witness: in the setup state both paddles sit at `y = 0`, inside
the interval, and the limiter leaves the left paddle's position
unchanged. -/
theorem c5_witness :
    (paddle_limiter setupState).paddleLeft.translation =
      setupState.paddleLeft.translation :=
  (c5_paddle_limiter setupState).2.2.1 (show (-328 : ℚ) ≤ 0 by norm_num)
    (show (0 : ℚ) ≤ 328 by norm_num)

/-- C6: for every entity having both a position and a velocity, the
Integrator maps position `p` to exactly `p + v·Δt`, the unused third
axis receiving velocity component `0` and staying unchanged; an entity
without a velocity component is not matched by the query and is not
moved. -/
theorem c6_integrator (dt : ℚ) (_hdt : 0 ≤ dt) (t : Vec3) (v : Vec2) (s : GameState) :
    moveMaybeVelocity dt t (some v) = ⟨t.x + v.x * dt, t.y + v.y * dt, t.z⟩ ∧
    moveMaybeVelocity dt t none = t ∧
    (movement dt s).ball.translation =
      ⟨s.ball.translation.x + s.ball.velocity.x * dt,
        s.ball.translation.y + s.ball.velocity.y * dt, s.ball.translation.z⟩ ∧
    (movement dt s).paddleLeft.translation =
      ⟨s.paddleLeft.translation.x + s.paddleLeft.velocity.x * dt,
        s.paddleLeft.translation.y + s.paddleLeft.velocity.y * dt,
        s.paddleLeft.translation.z⟩ ∧
    (movement dt s).paddleRight.translation =
      ⟨s.paddleRight.translation.x + s.paddleRight.velocity.x * dt,
        s.paddleRight.translation.y + s.paddleRight.velocity.y * dt,
        s.paddleRight.translation.z⟩ := by
  refine ⟨?_, rfl, ?_, ?_, ?_⟩ <;>
    simp only [moveMaybeVelocity, movement, moveEntity, Vec3.add, Vec2.extend,
      Vec3.smul] <;>
    norm_num

/-- C6, witness: one second of movement carries the setup ball from the
origin to `(150, 150)` with the third axis untouched. -/
theorem c6_witness :
    moveMaybeVelocity 1 ⟨0, 0, 0⟩ (some ⟨150, 150⟩) = ⟨0 + 150 * 1, 0 + 150 * 1, 0⟩ :=
  (c6_integrator 1 (by norm_num) ⟨0, 0, 0⟩ ⟨150, 150⟩ setupState).1

/-- C10: in a single invocation of the vertical part of the Ball
Limiter, the vertical velocity is negated exactly once when either bound
check fires and is never negated twice: when out of bounds and nonzero,
the resulting vertical velocity always differs from the incoming one. -/
theorem c10_vertical_flip_once (t : Vec3) (v : Vec2) :
    ((ballLimiterVert t v).2.y = if t.y > 352 ∨ t.y < -352 then -v.y else v.y) ∧
    (t.y > 352 ∨ t.y < -352 → v.y ≠ 0 → (ballLimiterVert t v).2.y ≠ v.y) := by
  rw [ballLimiterVert_eq]
  constructor
  · split_ifs with h1 h2 h3 <;> first | rfl | tauto
  · intro h hv
    split_ifs with h1 h2
    · dsimp only
      intro hEq
      apply hv
      linarith
    · dsimp only
      intro hEq
      apply hv
      linarith
    · rcases h with h | h
      · exact absurd h h1
      · exact absurd h h2

/-- C10, witness: a ball below the lower bound with vertical velocity
`-150` leaves the limiter with a vertical velocity different from
`-150`. -/
theorem c10_witness :
    (ballLimiterVert ⟨0, -400, 0⟩ ⟨150, -150⟩).2.y ≠ -150 :=
  (c10_vertical_flip_once ⟨0, -400, 0⟩ ⟨150, -150⟩).2
    (Or.inr (show (-400 : ℚ) < -352 by norm_num)) (by norm_num)

/-- C7, counterexample: the three post-movement systems are not
order-insensitive.  With the ball at `(0, 1000, 0)` (velocity
`(150, 150)`), the left paddle at `(0, 1000, 0)` and the right paddle at
`(500, 0, 0)`, running the collider last sees the limited positions
(`y = 352` versus `y = 328`, no overlap, no flip), while running the
collider first sees the raw positions (overlap, flip): the two orders
produce different states. -/
theorem c7_counterexample :
    ball_paddle_collider (ball_limiter (paddle_limiter
      ⟨⟨⟨0, 1000, 0⟩, ⟨150, 150⟩⟩, ⟨⟨0, 1000, 0⟩, ⟨0, 0⟩⟩, ⟨⟨500, 0, 0⟩, ⟨0, 0⟩⟩⟩)) ≠
    paddle_limiter (ball_limiter (ball_paddle_collider
      ⟨⟨⟨0, 1000, 0⟩, ⟨150, 150⟩⟩, ⟨⟨0, 1000, 0⟩, ⟨0, 0⟩⟩, ⟨⟨500, 0, 0⟩, ⟨0, 0⟩⟩⟩)) := by
  norm_num [ball_paddle_collider, ball_limiter, paddle_limiter, paddleLimiterStep_eq,
    ballLimiterStep, ballLimiterVert_eq, ballLimiterHoriz_eq, colliderPaddle, overlaps,
    PADDLE_WIDTH, PADDLE_HEIGHT, BALL_DIAMETER]

/-- C7, amended: the two limiters are order-insensitive with each other —
Paddle Limiter and Ball Limiter commute on every state, so the orders
that differ only in the relative position of the two limiters coincide —
but the Ball-Paddle Collider is not order-insensitive with the limiters
(a limiter can move the ball or a paddle across the overlap boundary),
so the six orders do not in general produce the same state. -/
theorem c7_limiters_commute (s : GameState) :
    ball_limiter (paddle_limiter s) = paddle_limiter (ball_limiter s) ∧
    ball_paddle_collider (ball_limiter (paddle_limiter s)) =
      ball_paddle_collider (paddle_limiter (ball_limiter s)) :=
  ⟨rfl, rfl⟩

/-- C8: in every state reachable at a frame boundary from the setup
state, the ball's vertical position lies within `[-352, 352]`. -/
theorem c8_ball_vertical_invariant (s : GameState) (h : Reachable s) :
    -352 ≤ s.ball.translation.y ∧ s.ball.translation.y ≤ 352 := by
  induction h with
  | init =>
    exact ⟨show (-352 : ℚ) ≤ 0 by norm_num, show (0 : ℚ) ≤ 352 by norm_num⟩
  | step s inputs dt hdt hr ih => exact frame_ball_y_bounds inputs dt s

/-- C8, witness: the setup state is reachable and its ball sits at
`y = 0`, inside the vertical bounds. -/
theorem c8_witness :
    -352 ≤ setupState.ball.translation.y ∧ setupState.ball.translation.y ≤ 352 :=
  c8_ball_vertical_invariant setupState Reachable.init

/-- C9: across one frame step from a reachable state, the Paddle
Controller, the Integrator and the Paddle Limiter leave the ball's
velocity unchanged, and the sign of the ball's horizontal velocity flips
exactly when the post-movement ball exits the horizontal bounds
(`|x|` beyond 648) or the collider's overlap test holds against a paddle
at the positions the collider reads. -/
theorem c9_horizontal_flip_iff (s : GameState) (h : Reachable s)
    (inputs : Inputs) (dt : ℚ) :
    (handle_inputs inputs s).ball.velocity = s.ball.velocity ∧
    (movement dt (handle_inputs inputs s)).ball.velocity =
      (handle_inputs inputs s).ball.velocity ∧
    (paddle_limiter (movement dt (handle_inputs inputs s))).ball.velocity =
      (movement dt (handle_inputs inputs s)).ball.velocity ∧
    ((frameStep inputs dt s).ball.velocity.x * s.ball.velocity.x < 0 ↔
      ((movement dt (handle_inputs inputs s)).ball.translation.x > 648 ∨
        (movement dt (handle_inputs inputs s)).ball.translation.x < -648) ∨
      overlaps
        (ball_limiter (paddle_limiter (movement dt (handle_inputs inputs s)))).ball.translation
        (ball_limiter (paddle_limiter (movement dt (handle_inputs inputs s)))).paddleLeft.translation ∨
      overlaps
        (ball_limiter (paddle_limiter (movement dt (handle_inputs inputs s)))).ball.translation
        (ball_limiter (paddle_limiter (movement dt (handle_inputs inputs s)))).paddleRight.translation) := by
  obtain ⟨hpl, hvl, hpr, hvr, hbv⟩ := reachable_config s h
  refine ⟨rfl, rfl, rfl, ?_⟩
  set s2 := movement dt (handle_inputs inputs s) with hs2
  set s4 := ball_limiter (paddle_limiter s2) with hs4
  have hpadL4 : s4.paddleLeft.translation.x = -500 := by
    show (paddleLimiterStep s2.paddleLeft.translation).x = -500
    rw [paddleLimiterStep_x]
    show s.paddleLeft.translation.x + s.paddleLeft.velocity.x * dt = -500
    rw [hpl, hvl]; ring
  have hpadR4 : s4.paddleRight.translation.x = 500 := by
    show (paddleLimiterStep s2.paddleRight.translation).x = 500
    rw [paddleLimiterStep_x]
    show s.paddleRight.translation.x + s.paddleRight.velocity.x * dt = 500
    rw [hpr, hvr]; ring
  have hfr : (frameStep inputs dt s).ball.velocity.x =
      (if overlaps s4.ball.translation s4.paddleRight.translation then -1 else 1) *
      ((if overlaps s4.ball.translation s4.paddleLeft.translation then -1 else 1) *
        s4.ball.velocity.x) := collider_vx_eq s4
  rw [hfr]
  by_cases hE : s2.ball.translation.x > 648 ∨ s2.ball.translation.x < -648
  · have hout := ballLimiterStep_out s2.ball.translation s.ball.velocity hE
    have hT4 : s4.ball.translation = ⟨0, 0, 0⟩ := hout.1
    have hV4 : s4.ball.velocity.x = -s.ball.velocity.x := hout.2
    have hnoL : ¬ overlaps s4.ball.translation s4.paddleLeft.translation := by
      intro ho
      have h1 := ho.1
      rw [hT4, hpadL4] at h1
      norm_num [PADDLE_WIDTH] at h1
    have hnoR : ¬ overlaps s4.ball.translation s4.paddleRight.translation := by
      intro ho
      have h2 := ho.2.1
      rw [hT4, hpadR4] at h2
      norm_num [BALL_DIAMETER] at h2
    rw [if_neg hnoL, if_neg hnoR, hV4]
    refine iff_of_true ?_ (Or.inl hE)
    rcases hbv with hb | hb <;> rw [hb] <;> norm_num
  · have hV4 : s4.ball.velocity.x = s.ball.velocity.x :=
      ballLimiterStep_in s2.ball.translation s.ball.velocity hE
    by_cases hoL : overlaps s4.ball.translation s4.paddleLeft.translation
    · have hnoR : ¬ overlaps s4.ball.translation s4.paddleRight.translation := by
        intro hoR
        have h1 := hoL.1
        have h2 := hoR.2.1
        rw [hpadL4] at h1
        rw [hpadR4] at h2
        norm_num [PADDLE_WIDTH] at h1
        norm_num [BALL_DIAMETER] at h2
        linarith
      rw [if_neg hnoR, if_pos hoL, hV4]
      refine iff_of_true ?_ (Or.inr (Or.inl hoL))
      rcases hbv with hb | hb <;> rw [hb] <;> norm_num
    · by_cases hoR : overlaps s4.ball.translation s4.paddleRight.translation
      · rw [if_pos hoR, if_neg hoL, hV4]
        refine iff_of_true ?_ (Or.inr (Or.inr hoR))
        rcases hbv with hb | hb <;> rw [hb] <;> norm_num
      · rw [if_neg hoR, if_neg hoL, hV4]
        refine iff_of_false ?_ ?_
        · rcases hbv with hb | hb <;> rw [hb] <;> norm_num
        · rintro (hE2 | hoL2 | hoR2)
          · exact hE hE2
          · exact hoL hoL2
          · exact hoR hoR2

/-- C9, witness: one frame from the setup state with no keys pressed and
zero elapsed time: no system but the limiter and collider touches the
ball's velocity, and the sign of the horizontal velocity does not flip
because the ball neither exits the bounds nor overlaps a paddle. -/
theorem c9_witness :
    (handle_inputs Inputs.default setupState).ball.velocity = setupState.ball.velocity ∧
    (movement 0 (handle_inputs Inputs.default setupState)).ball.velocity =
      (handle_inputs Inputs.default setupState).ball.velocity ∧
    (paddle_limiter (movement 0 (handle_inputs Inputs.default setupState))).ball.velocity =
      (movement 0 (handle_inputs Inputs.default setupState)).ball.velocity ∧
    ((frameStep Inputs.default 0 setupState).ball.velocity.x *
        setupState.ball.velocity.x < 0 ↔
      ((movement 0 (handle_inputs Inputs.default setupState)).ball.translation.x > 648 ∨
        (movement 0 (handle_inputs Inputs.default setupState)).ball.translation.x < -648) ∨
      overlaps
        (ball_limiter (paddle_limiter (movement 0 (handle_inputs Inputs.default setupState)))).ball.translation
        (ball_limiter (paddle_limiter (movement 0 (handle_inputs Inputs.default setupState)))).paddleLeft.translation ∨
      overlaps
        (ball_limiter (paddle_limiter (movement 0 (handle_inputs Inputs.default setupState)))).ball.translation
        (ball_limiter (paddle_limiter (movement 0 (handle_inputs Inputs.default setupState)))).paddleRight.translation) :=
  c9_horizontal_flip_iff setupState Reachable.init Inputs.default 0

end Pong

